import Mathlib

/-!
Shallow embedding of the go-ftp client (`client.go`, package `ftp`) and
verification of its specification claims.

Modelling conventions:
* Go strings on the control channel are ASCII in this protocol, so one Go
  byte corresponds to one `Char`; strings are modelled as `List Char`
  (obtained from Lean string literals via `.data`).
* Go `uint`/`int` are modelled as `Nat`/`Int`; where Go overflow semantics
  matter (the `uint(...)` conversion and 64-bit `int` arithmetic in
  `extractDataPort`) we take the result modulo `2^64` explicitly.  Go's
  `int` is modelled as 64-bit (the standard amd64/arm64 width).
* Fallible operations return explicit result inductives; `FtpErr` tags the
  error classes the source produces.
* The control connection is modelled as the list of lines (for the
  line-oriented `Cmd` reader) or the list of bytes (for the `bufio`
  consumption model), plus the outcomes of successive `Write` calls.
-/

namespace Ftp

/-- `var CRLF = "\r\n"` from the source. -/
def CRLF : String := "\r\n"

/-- Error values produced by the client.  The source uses `fmt.Errorf`
strings; we tag each production site, keeping the data the message
carries (expected/actual codes, the offending response text). -/
inductive FtpErr where
  /-- Blank/malformed caller input, detected before any I/O. -/
  | validation (msg : String)
  /-- A `Write` on the control channel failed. -/
  | ioWrite
  /-- A read on the control channel failed (includes EOF before a
  terminal line). -/
  | ioRead
  /-- `strconv.Atoi(response[0:3])` failed in `Cmd`; the source returns
  `(0, response, err)`, retaining the response text. -/
  | parse (response : List Char)
  /-- `checkResponseCode` mismatch: carries expected and actual codes
  (`"Bad response from server. Expected: %d, Got: %d"`). -/
  | badResponse (expected got : Nat)
  /-- Protocol-level failure with message (e.g. no PASV port data). -/
  | protocol (msg : String)
  /-- An operating-system level failure (file open/write), abstracted. -/
  | osError
  /-- `c.control.Close()` returned an error in `Logout`. -/
  | closeFailed
  /-- A wrapped error: the source formats an inner error into a new
  message (`fmt.Sprintf("....Error: %v", err)`). -/
  | wrapped (context : String) (inner : FtpErr)
  deriving Repr, DecidableEq

/-- Result of an operation returning a value or an error (Go's
`(value, error)` pair idiom, with the zero-value conventions of each
call site noted there). -/
inductive Res (α : Type) where
  | ok (val : α)
  | err (e : FtpErr)
  deriving Repr, DecidableEq

/-- Whether a `Res` is a success. -/
def Res.isOk {α : Type} : Res α → Bool
  | .ok _ => true
  | .err _ => false

/-! ### Digits and Go's `strconv.Atoi` -/

/-- Numeric value of a decimal digit character. -/
def digitVal (c : Char) : Nat := c.toNat - '0'.toNat

/-- Decimal value of a digit string (most significant first), as
accumulated by Go's `ParseInt` loop. -/
def digitsToNat (cs : List Char) : Nat :=
  cs.foldl (fun a c => a * 10 + digitVal c) 0

/-- All characters are decimal digits. -/
def allDigits (cs : List Char) : Bool := cs.all Char.isDigit

/-- Go `strconv.Atoi` restricted to the short strings `Cmd` applies it to
(`response[0:3]`, three bytes): an optional sign followed by at least one
digit, every character a digit; any other shape is a syntax error
(`none`).  Range errors cannot occur at this length, so the parsed value
is exact. -/
def goAtoi (cs : List Char) : Option Int :=
  match cs with
  | [] => none
  | '+' :: rest =>
      if rest ≠ [] ∧ allDigits rest then some (digitsToNat rest) else none
  | '-' :: rest =>
      if rest ≠ [] ∧ allDigits rest then some (-(digitsToNat rest : Int)) else none
  | _ => if allDigits cs then some (digitsToNat cs) else none

/-- Go's `uint(t)` conversion of a (64-bit) `int`: reinterpretation of the
two's-complement bits, i.e. the value modulo `2^64`. -/
def intToUint64 (t : Int) : Nat := (t % (2 ^ 64 : Int)).toNat

/-! ### The terminal-response pattern

`Cmd` compiles `regexp.MustCompile("[0-9][0-9][0-9] ")` and tests each
line with `MatchString`, i.e. the pattern may occur anywhere in the
line. -/

/-- The line begins with three decimal digits followed by a space. -/
def startsCode : List Char → Bool
  | d1 :: d2 :: d3 :: c :: _ => d1.isDigit && d2.isDigit && d3.isDigit && c == ' '
  | _ => false

/-- `regex.MatchString(ln)` for the pattern `[0-9][0-9][0-9] `: three
digits followed by a space occur somewhere in the line. -/
def hasCodePattern : List Char → Bool
  | [] => false
  | c :: cs => startsCode (c :: cs) || hasCodePattern cs

/-! ### The control channel and `Cmd` (line-level model)

`Cmd` writes `command + " " + arg + CRLF`, then reads lines
(`bufio.Reader.ReadString('\n')`, each line including its trailing
newline) until a line matches the terminal pattern, accumulating them
into `response`; finally it parses `response[0:3]` with `Atoi`.
At line granularity the connection is the list of incoming lines; a
read past the end is an I/O error (EOF before a terminal line). -/

/-- The control channel: outcomes of successive `Write` calls (an
exhausted list means writes succeed) and the incoming lines. -/
structure Chan where
  writeResults : List Bool
  lines : List (List Char)
  deriving Repr, DecidableEq

/-- Consume the outcome of one `Write`. -/
def popWrite : List Bool → Bool × List Bool
  | [] => (true, [])
  | b :: t => (b, t)

/-- The read loop of `Cmd`: consume lines, concatenating them into the
response, until a line matches the terminal pattern (that line is
included); `none` when the stream ends before a terminal line (the
`ReadString` error return). Returns the response and the unconsumed
lines. -/
def readResp : List (List Char) → Option (List Char × List (List Char))
  | [] => none
  | ln :: rest =>
      if hasCodePattern ln then some (ln, rest)
      else
        match readResp rest with
        | none => none
        | some (r, rem) => some (ln ++ r, rem)

/-- Outcome of one `Cmd` call: the `(code, response, err)` result, the
channel state afterwards, and the commands actually written. -/
structure CmdOut where
  result : Res (Nat × List Char)
  chan : Chan
  sent : List String
  deriving Repr, DecidableEq

/-- `func (c *Connection) Cmd(command string, arg string)`: write the
formatted command; on write error return it.  Read lines until the
terminal pattern; on read error (EOF) return it.  Parse the first three
characters of the accumulated response with `Atoi`; on failure return
`(0, response, err)`; otherwise `(uint(t), response, nil)`. -/
def Cmd (command arg : String) (ch : Chan) : CmdOut :=
  let formatted := command ++ " " ++ arg ++ CRLF
  let (wok, wrest) := popWrite ch.writeResults
  if wok = false then
    ⟨.err .ioWrite, ⟨wrest, ch.lines⟩, []⟩
  else
    match readResp ch.lines with
    | none => ⟨.err .ioRead, ⟨wrest, []⟩, [formatted]⟩
    | some (resp, rem) =>
        match goAtoi (resp.take 3) with
        | none => ⟨.err (.parse resp), ⟨wrest, rem⟩, [formatted]⟩
        | some t => ⟨.ok (intToUint64 t, resp), ⟨wrest, rem⟩, [formatted]⟩

/-! ### `Login` and `Logout` -/

/-- `"FTP Connection Error: User can not be blank!"` -/
def userBlankMsg : String := "FTP Connection Error: User can not be blank!"

/-- `"FTP Connection Error: Password can not be blank!"` -/
def passwordBlankMsg : String := "FTP Connection Error: Password can not be blank!"

/-- Outcome of `Login`: the returned error (if any), the channel state
afterwards, and the commands actually written. -/
structure LoginOut where
  err : Option FtpErr
  chan : Chan
  sent : List String
  deriving Repr, DecidableEq

/-- `func (c *Connection) Login(user, password string) error`: reject a
blank user, then a blank password, before any I/O.  Otherwise issue
`USER` then `PASS` via `Cmd`.  Mirroring the source exactly, the error
of the `USER` call is stored in `err` and then overwritten by the
`PASS` call's error before the `if err != nil` check, so only the
`PASS` exchange's error can be returned. -/
def Login (user password : String) (ch : Chan) : LoginOut :=
  if user = "" then ⟨some (.validation userBlankMsg), ch, []⟩
  else if password = "" then ⟨some (.validation passwordBlankMsg), ch, []⟩
  else
    let r1 := Cmd "USER" user ch
    let r2 := Cmd "PASS" password r1.chan
    match r2.result with
    | .err e => ⟨some e, r2.chan, r1.sent ++ r2.sent⟩
    | .ok _ => ⟨none, r2.chan, r1.sent ++ r2.sent⟩

/-- Outcome of `Logout`: the returned error and whether
`c.control.Close()` was invoked. -/
structure LogoutOut where
  err : Option FtpErr
  closed : Bool
  deriving Repr, DecidableEq

/-- `func (c *Connection) Logout() error`: issue `QUIT` via `Cmd`; if
that returns an error, return it at once — `Close` is not reached.
Otherwise call `c.control.Close()` (the environment flag `closeFails`
chooses its outcome) and surface its error. -/
def Logout (ch : Chan) (closeFails : Bool) : LogoutOut :=
  let r := Cmd "QUIT" "" ch
  match r.result with
  | .err e => ⟨some e, false⟩
  | .ok _ => if closeFails then ⟨some .closeFailed, true⟩ else ⟨none, true⟩

/-! ### `checkResponseCode` -/

/-- `func checkResponseCode(expectCode, code uint) error`: the source's
three-armed condition, verbatim; on mismatch the error carries both
codes. -/
def checkResponseCode (expectCode code : Nat) : Option FtpErr :=
  if (1 ≤ expectCode ∧ expectCode < 10 ∧ code / 100 ≠ expectCode)
      ∨ (10 ≤ expectCode ∧ expectCode < 100 ∧ code / 10 ≠ expectCode)
      ∨ (100 ≤ expectCode ∧ expectCode < 1000 ∧ code ≠ expectCode)
  then some (.badResponse expectCode code)
  else none

/-- Truncation of the actual code to the digit width of the expected
value, following the claim's words ("a/100 when 1<=e<=9, a/10 when
10<=e<=99, a itself when 100<=e<=999"); stated for comparison with
`checkResponseCode`. -/
def truncToWidth (expectCode code : Nat) : Nat :=
  if expectCode < 10 then code / 100
  else if expectCode < 100 then code / 10
  else code

/-! ### `extractDataPort`

The source matches `"[0-9]+,[0-9]+,[0-9]+,[0-9]+,([0-9]+,[0-9]+)"` with
`FindStringSubmatch` (Go regexp: leftmost-first semantics).  Because each
`[0-9]+` is followed by a separator that is not a digit, greedy matching
is deterministic: every `[0-9]+` takes the maximal digit run, and no
backtracking can succeed where maximal munch fails.  So a match starting
at a position is: six maximal nonempty digit runs separated by commas,
and the leftmost starting position wins.  `match[1]` is `"p1,p2"`,
which `strings.Split` turns back into the two port groups — the model
returns that pair directly. -/

/-- Maximal digit run at the head of the list and the remainder. -/
def takeDigits : List Char → List Char × List Char
  | [] => ([], [])
  | c :: cs =>
      if c.isDigit then
        let (d, r) := takeDigits cs
        (c :: d, r)
      else ([], c :: cs)

/-- Consume one `[0-9]+,` unit: a nonempty maximal digit run followed by
a comma; return the remainder. -/
def octetComma (cs : List Char) : Option (List Char) :=
  match takeDigits cs with
  | ([], _) => none
  | (_ :: _, rest) =>
      match rest with
      | ',' :: r => some r
      | _ => none

/-- Match the whole pattern at exactly this position; on success return
the two digit groups captured by `([0-9]+,[0-9]+)` (i.e. `match[1]`
split at its comma). -/
def matchPortAt (cs : List Char) : Option (List Char × List Char) := do
  let r1 ← octetComma cs
  let r2 ← octetComma r1
  let r3 ← octetComma r2
  let r4 ← octetComma r3
  match takeDigits r4 with
  | ([], _) => none
  | (p1, rest5) =>
      match rest5 with
      | ',' :: r5 =>
          match takeDigits r5 with
          | ([], _) => none
          | (p2, _) => some (p1, p2)
      | _ => none

/-- Leftmost match of the port pattern in the line. -/
def findPortMatch : List Char → Option (List Char × List Char)
  | [] => none
  | c :: cs =>
      match matchPortAt (c :: cs) with
      | some g => some g
      | none => findPortMatch cs

/-- `math.MaxInt64`: the value Go's `strconv.Atoi` returns (with
`ErrRange`) when a digit string exceeds the 64-bit signed range. -/
def maxInt64 : Nat := 2 ^ 63 - 1

/-- Go `strconv.Atoi` applied to one matched digit group, with the error
ignored (`firstOctet, _ := strconv.Atoi(octets[0])`): the group is all
digits, so the only possible failure is a range error, whose returned
value is `maxInt64`. -/
def atoiDigitsGo (ds : List Char) : Nat := min (digitsToNat ds) maxInt64

/-- `func extractDataPort(line string) (port uint, err error)`: find the
six-group pattern; if absent, fail with the source's message.  Otherwise
`port = uint(firstOctet*256 + secondOctet)`: 64-bit `int` arithmetic
followed by the `uint` conversion, i.e. the value modulo `2^64`. -/
def extractDataPort (line : List Char) : Res Nat :=
  match findPortMatch line with
  | none => .err (.protocol ("Cannot find data port in server output: " ++ String.mk line))
  | some (p1, p2) => .ok ((atoiDigitsGo p1 * 256 + atoiDigitsGo p2) % 2 ^ 64)

/-! ### `Dial` input validation -/

/-- `strings.LastIndex(s, string(c))` for a one-character needle: the
index of the last occurrence, or `-1`. -/
def lastIndexC : List Char → Char → Int
  | [], _ => -1
  | x :: xs, c =>
      let r := lastIndexC xs c
      if r ≥ 0 then r + 1 else if x = c then 0 else -1

/-- `func hasPort(s string) bool`:
`strings.LastIndex(s, ":") > strings.LastIndex(s, "]")`. -/
def hasPort (s : String) : Bool := lastIndexC s.data ':' > lastIndexC s.data ']'

/-- Where `Dial` gets to before any network I/O: either it returns a
validation error, or it proceeds to `net.Dial("tcp", host)`. -/
inductive DialOutcome where
  | validationError (msg : String)
  | netDial (host : String)
  deriving Repr, DecidableEq

/-- The validation phase of `func Dial(host string)`: reject the empty
host, then a host without a port, each before `net.Dial` is reached. -/
def dialCheck (host : String) : DialOutcome :=
  if host = "" then .validationError "FTP Connection Error: Host can not be blank!"
  else if hasPort host = false then
    .validationError "FTP Connection Error: Host must have a port! e.g. host:21"
  else .netDial host

/-! ### `DownloadFile` (transfer engine)

`DownloadFile` issues `PASV`, classifies it against 2, decodes the data
port, issues `TYPE`, classifies it, writes `RETR <src>` directly, then
calls `net.Dial` to the data port and immediately registers
`defer downloadConn.Close()` *before* checking the dial error.  When the
dial fails, `downloadConn` is a nil `net.Conn` interface, and the
deferred `Close` call on it panics during the `return` — a Go runtime
crash, not an error return.  (`GetBuffer` and `UploadFile` contain the
same `net.Dial`-then-`defer` pattern.)  The destination file is opened
with the same defer-first pattern, but `(*os.File).Close` on a nil
receiver returns `ErrInvalid` instead of panicking, so that path returns
the open error normally.  The environment supplies the outcomes of the
dial, the file open, the data-connection reads and the file writes. -/

/-- Environment for one `DownloadFile` call. -/
structure TransferEnv where
  /-- Control channel (write outcomes and incoming reply lines). -/
  chan : Chan
  /-- Outcome of `net.Dial("tcp", hostname:dataPort)`. -/
  dialOk : Bool
  /-- Outcome of `os.OpenFile(dest, ...)`. -/
  destOpenOk : Bool
  /-- Successive successful reads from the data connection. -/
  dataChunks : List (List Char)
  /-- After the chunks: `true` = the read returns `io.EOF` (normal end),
  `false` = a non-EOF read error. -/
  eofAfterChunks : Bool
  /-- Whether writes to the destination file succeed. -/
  fileWriteOk : Bool
  deriving Repr, DecidableEq

/-- How a Go function call terminates: a normal return carrying its
error result, or a runtime panic. -/
inductive GoOutcome where
  | ret (e : Option FtpErr)
  | panicked
  deriving Repr, DecidableEq

/-- Result of a transfer operation: how it terminated, and whether the
data connection's `Close` ran (the deferred close). -/
structure TransferResult where
  outcome : GoOutcome
  dataConnClosed : Bool
  deriving Repr, DecidableEq

/-- The read/write copy loop of `DownloadFile`: each successful read is
written to the destination file (a failed write returns its error); after
the chunks, `io.EOF` breaks the loop and anything else is returned. -/
def copyLoop (chunks : List (List Char)) (eofAfter : Bool) (fileWriteOk : Bool) :
    Option FtpErr :=
  match chunks with
  | [] => if eofAfter then none else some .ioRead
  | _ :: rest =>
      if fileWriteOk then copyLoop rest eofAfter fileWriteOk
      else some (.wrapped "Coudn't write to file" .osError)

/-- `func (c *Connection) DownloadFile(src, dest, mode string, timeout uint) error`,
step by step in source order.  `dataConnClosed` records whether the
deferred `downloadConn.Close()` executed on a live connection. -/
def DownloadFile (src dest mode : String) (timeout : Nat) (env : TransferEnv) :
    TransferResult :=
  let pasv := Cmd "PASV" "" env.chan
  match pasv.result with
  | .err e => ⟨.ret (some e), false⟩
  | .ok (pasvCode, pasvLine) =>
    match checkResponseCode 2 pasvCode with
    | some pasvErr => ⟨.ret (some (.wrapped "Cannot set PASV" pasvErr)), false⟩
    | none =>
      match extractDataPort pasvLine with
      | .err e => ⟨.ret (some e), false⟩
      | .ok _dataPort =>
        let ty := Cmd "TYPE" mode pasv.chan
        match ty.result with
        | .err e => ⟨.ret (some e), false⟩
        | .ok (typeCode, _typeLine) =>
          match checkResponseCode 2 typeCode with
          | some typeErr => ⟨.ret (some (.wrapped "Cannot set TYPE" typeErr)), false⟩
          | none =>
            -- `RETR <src>` is written directly to the control channel.
            let (wok, _wrest) := popWrite ty.chan.writeResults
            if wok = false then ⟨.ret (some .ioWrite), false⟩
            else if env.dialOk = false then
              -- `defer downloadConn.Close()` was registered before the
              -- error check; the deferred call on the nil interface
              -- panics during the error return.
              ⟨.panicked, false⟩
            else if env.destOpenOk = false then
              ⟨.ret (some (.wrapped ("Cannot open destination file, " ++ dest) .osError)), true⟩
            else
              ⟨.ret (copyLoop env.dataChunks env.eofAfterChunks env.fileWriteOk), true⟩

/-! ### Byte-level `bufio` consumption model of `Cmd`'s read loop

`Cmd` wraps the connection in a *fresh* `bufio.NewReader` (buffer size
4096).  `ReadString('\n')` fills the buffer from the connection while no
newline is buffered — a fill reads up to the free buffer space and, in
this model's environment, the connection delivers all bytes it currently
holds (the whole remaining stream), as TCP may; when the buffer is full
without a newline the data is set aside as a fragment of the growing
line.  After the terminal line is recognized, `Cmd` returns and the
`bufio.Reader` — with whatever bytes it buffered beyond the terminal
line — is discarded, so those bytes are consumed from the connection and
lost.  The recursion is fuel-indexed to stay structural; `outOfFuel`
is distinguishable, and the top-level wrapper supplies fuel that the
evaluated theorems show to be sufficient. -/

/-- `bufio.NewReader`'s default buffer size. -/
def bufCap : Nat := 4096

/-- Index of the first newline, if any. -/
def firstNL : List Char → Option Nat
  | [] => none
  | c :: cs => if c = '\n' then some 0 else (firstNL cs).map (· + 1)

/-- Result of the byte-level read loop: the accumulated response plus
the bytes left in the (about to be discarded) buffer and the bytes still
unread on the connection. -/
inductive ByteRead where
  | outOfFuel
  /-- The connection ended before a terminal line (`Cmd` returns an
  I/O error). -/
  | eofBeforeTerminal
  | done (response : List Char) (bufLeft : List Char) (streamLeft : List Char)
  deriving Repr, DecidableEq

/-- One step of `Cmd`'s loop over `ReadString('\n')` against the
`bufio` state: `resp` is the response so far, `frag` the fragments of a
line longer than the buffer, `buf` the buffered bytes, `stream` the
bytes not yet read from the connection. -/
def cmdReadBytes : Nat → List Char → List Char → List Char → List Char → ByteRead
  | 0, _, _, _, _ => .outOfFuel
  | fuel + 1, resp, frag, buf, stream =>
      match firstNL buf with
      | some i =>
          -- a full line is buffered: take it (including the newline)
          let ln := frag ++ buf.take (i + 1)
          let buf' := buf.drop (i + 1)
          if hasCodePattern ln then .done (resp ++ ln) buf' stream
          else cmdReadBytes fuel (resp ++ ln) [] buf' stream
      | none =>
          if bufCap ≤ buf.length then
            -- buffer full without a newline: stash it as a fragment
            cmdReadBytes fuel resp (frag ++ buf) [] stream
          else
            match stream with
            | [] => .eofBeforeTerminal
            | _ =>
                -- fill: the connection delivers everything available,
                -- capped by the free buffer space
                let n := min (bufCap - buf.length) stream.length
                cmdReadBytes fuel resp frag (buf ++ stream.take n) (stream.drop n)

/-- The read phase of one `Cmd` call at byte level, starting from a
fresh `bufio.Reader`: what response is assembled, what stays in the
discarded buffer, and where the connection's unread stream is left. -/
def cmdConsume (stream : List Char) : ByteRead :=
  cmdReadBytes (3 * stream.length + 3) [] [] [] stream

/-! ## Claim theorems -/

/-- C2: for every expected value `e` (1–999) and actual code `a`,
`checkResponseCode` succeeds iff truncating `a` to the digit width of `e`
(`a/100`, `a/10`, or `a` itself) gives exactly `e`; and for every `e` in
{2, 23, 230}, classification of 230 succeeds while classification of 500
fails with an error carrying both values. -/
theorem checkResponseCode_truncation (e a : Nat) (h1 : 1 ≤ e) (h2 : e ≤ 999) :
    (checkResponseCode e a = none ↔ truncToWidth e a = e)
    ∧ ((e = 2 ∨ e = 23 ∨ e = 230) →
        checkResponseCode e 230 = none
        ∧ checkResponseCode e 500 = some (.badResponse e 500)) := by
  constructor
  · have hC : checkResponseCode e a = none ↔
        ¬((1 ≤ e ∧ e < 10 ∧ a / 100 ≠ e) ∨ (10 ≤ e ∧ e < 100 ∧ a / 10 ≠ e)
          ∨ (100 ≤ e ∧ e < 1000 ∧ a ≠ e)) := by
      unfold checkResponseCode
      split_ifs with h <;> simp [h]
    rw [hC]
    unfold truncToWidth
    split_ifs <;> omega
  · rintro (rfl | rfl | rfl) <;> exact ⟨by decide, by decide⟩

/-- Witness for C2 at `e = 23`, `a = 230`. -/
theorem checkResponseCode_truncation_witness :
    (checkResponseCode 23 230 = none ↔ truncToWidth 23 230 = 23)
    ∧ ((23 = 2 ∨ 23 = 23 ∨ 23 = 230) →
        checkResponseCode 23 230 = none
        ∧ checkResponseCode 23 500 = some (.badResponse 23 500)) :=
  checkResponseCode_truncation 23 230 (by decide) (by decide)

/-- C8: for every host string that is empty or lacks a colon-delimited
port (no `:` after the last `]`), `Dial` returns a validation error
before reaching `net.Dial`. -/
theorem dial_validates_port_before_io (host : String)
    (h : host = "" ∨ hasPort host = false) :
    ∃ msg, dialCheck host = .validationError msg := by
  rcases h with rfl | h
  · exact ⟨_, rfl⟩
  · by_cases h0 : host = ""
    · subst h0; exact ⟨_, rfl⟩
    · exact ⟨"FTP Connection Error: Host must have a port! e.g. host:21",
        by simp [dialCheck, h0, h]⟩

/-- Witness for C8 at the portless host `"localhost"`. -/
theorem dial_validates_port_before_io_witness :
    ∃ msg, dialCheck "localhost" = .validationError msg :=
  dial_validates_port_before_io "localhost" (Or.inr (by decide))

/-- C9: `Login("", password)` and `Login(user, "")` fail with a
validation error without writing any command to the control channel and
without touching the channel state. -/
theorem login_blank_rejected_without_send (user password : String) (ch : Chan) :
    Login "" password ch = ⟨some (.validation userBlankMsg), ch, []⟩
    ∧ Login user "" ch
        = ⟨some (.validation (if user = "" then userBlankMsg else passwordBlankMsg)), ch, []⟩ := by
  constructor
  · simp [Login]
  · by_cases h : user = "" <;> simp [Login, h]

/-- C6 (code bug): the `USER` exchange fails with an I/O error (its
`Write` fails) while the `PASS` exchange succeeds; `Login` returns no
error because the source overwrites the `USER` error with the `PASS`
result before checking it — only the `PASS` command ever got onto the
wire, yet the caller sees success. -/
theorem login_discards_user_exchange_error :
    Login "u" "p" ⟨[false, true], [("230 ok\r\n").data]⟩
      = ⟨none, ⟨[], []⟩, ["PASS p\r\n"]⟩ := rfl

/-- C4 (code bug): with both `"226 ok\r\n"` and the following reply
`"331 x\r\n"` available on the connection, `Cmd`'s fresh
`bufio.Reader` buffers all 16 bytes in its first fill; after the
terminal line is recognized the remaining reply sits in the discarded
buffer, so the connection's unread stream is empty — not positioned at
the byte after the terminal line as the claim requires. -/
theorem cmd_bufio_consumes_past_terminal :
    cmdConsume ("226 ok\r\n331 x\r\n").data
      = .done ("226 ok\r\n").data ("331 x\r\n").data []
    ∧ (("331 x\r\n").data : List Char) ≠ [] := ⟨rfl, by decide⟩

/-- C5 (code bug): with a well-formed PASV/TYPE handshake but a failing
dial to the decoded data port, `DownloadFile` panics — the `defer
downloadConn.Close()` registered before the error check runs on a nil
connection interface — instead of closing the data connection and
returning an error value. -/
theorem download_panics_on_data_dial_failure :
    DownloadFile "f.txt" "g.txt" "I" 0
      ⟨⟨[], [("227 Entering Passive Mode (127,0,0,1,205,238).\r\n").data,
             ("200 Type set to I.\r\n").data]⟩,
       false, true, [], true, true⟩
      = ⟨.panicked, false⟩ := rfl

/-- C1 (amended): for every reply made of continuation lines (none
matching the terminal pattern) followed by a terminal line, `Cmd`
concatenates all consumed lines, the terminal one included, into one
response; the numeric code is parsed (`Atoi`) from the first three
characters of the *first* line of the body — for standard
continuations opening with the same code (e.g. `226-`) this equals the
final line's code. -/
theorem cmd_multiline_concat_code_first_line (command arg : String)
    (pre : List (List Char)) (term : List Char) (rest : List (List Char))
    (hpre : ∀ l ∈ pre, hasCodePattern l = false)
    (hterm : hasCodePattern term = true) :
    readResp (pre ++ term :: rest) = some (pre.flatten ++ term, rest)
    ∧ ∀ code resp,
        (Cmd command arg ⟨[], pre ++ term :: rest⟩).result = .ok (code, resp) →
        resp = pre.flatten ++ term
        ∧ ∃ t, goAtoi (resp.take 3) = some t ∧ code = intToUint64 t := by
  have hread : readResp (pre ++ term :: rest) = some (pre.flatten ++ term, rest) := by
    induction pre with
    | nil => simp [readResp, hterm]
    | cons l ls ih =>
        have hl : hasCodePattern l = false := hpre l (by simp)
        have ih' := ih fun x hx => hpre x (by simp [hx])
        simp [readResp, hl, ih']
  refine ⟨hread, ?_⟩
  intro code resp hok
  unfold Cmd at hok
  simp only [popWrite, hread] at hok
  rcases hgo : goAtoi ((pre.flatten ++ term).take 3) with _ | t <;>
    simp [hgo] at hok
  obtain ⟨hcode, hresp⟩ := hok
  subst hresp
  exact ⟨rfl, t, hgo, hcode.symm⟩

/-- Witness for C1's theorem: one continuation line `"226-mark\r\n"`
followed by the terminal `"226 ok\r\n"`. -/
theorem cmd_multiline_concat_code_first_line_witness :
    readResp [("226-mark\r\n").data, ("226 ok\r\n").data]
      = some ([("226-mark\r\n").data].flatten ++ ("226 ok\r\n").data, [])
    ∧ (("226-mark\r\n226 ok\r\n").data = [("226-mark\r\n").data].flatten ++ ("226 ok\r\n").data
       ∧ ∃ t, goAtoi (("226-mark\r\n226 ok\r\n").data.take 3) = some t
           ∧ 226 = intToUint64 t) :=
  ⟨(cmd_multiline_concat_code_first_line "RETR" "f" [("226-mark\r\n").data]
      ("226 ok\r\n").data [] (by decide) (by decide)).1,
   (cmd_multiline_concat_code_first_line "RETR" "f" [("226-mark\r\n").data]
      ("226 ok\r\n").data [] (by decide) (by decide)).2
     226 ("226-mark\r\n226 ok\r\n").data rfl⟩

/-- Counterexample to C1 as stated: a reply whose three continuation
lines do not begin with digits, followed by the terminal line
`"226 Transfer complete\r\n"`.  `Cmd` consumes all four lines but parses
the first three characters of the *first* line (`"abc"`), so it returns
an `Atoi` error carrying the full response — not a response with
numeric code 226 taken from the final line. -/
theorem cmd_multiline_code_not_from_final_line :
    (Cmd "NOOP" "" ⟨[], [("abc\r\n").data, ("def\r\n").data, ("ghi\r\n").data,
        ("226 Transfer complete\r\n").data]⟩).result
      = .err (.parse ("abc\r\ndef\r\nghi\r\n226 Transfer complete\r\n").data) := rfl

/-- C7 (amended): `Logout` issues `QUIT`; the control channel is closed
exactly when the `QUIT` exchange succeeds — the response *code* is never
classified, so even a failure code (e.g. 500) still leads to `Close`,
whose error is surfaced — but when reading the `QUIT` response fails,
`Logout` returns that error without closing the channel. -/
theorem logout_close_iff_quit_ok (ch : Chan) (closeFails : Bool) :
    ((Logout ch closeFails).closed = (Cmd "QUIT" "" ch).result.isOk)
    ∧ (∀ e, (Cmd "QUIT" "" ch).result = .err e →
        Logout ch closeFails = ⟨some e, false⟩)
    ∧ (∀ code resp, (Cmd "QUIT" "" ch).result = .ok (code, resp) →
        (Logout ch closeFails).closed = true
        ∧ ((Logout ch closeFails).err = none ↔ closeFails = false)) := by
  unfold Logout
  rcases hq : (Cmd "QUIT" "" ch).result with v | e <;>
    cases closeFails <;> simp [hq, Res.isOk]

/-- Witness for C7's theorem: the `QUIT` reply carries the failure code
500, yet the channel is still closed and no error is returned. -/
theorem logout_close_iff_quit_ok_witness :
    (Logout ⟨[], [("500 no\r\n").data]⟩ false).closed = true
    ∧ ((Logout ⟨[], [("500 no\r\n").data]⟩ false).err = none ↔ false = false) :=
  (logout_close_iff_quit_ok ⟨[], [("500 no\r\n").data]⟩ false).2.2
    500 ("500 no\r\n").data rfl

/-- Counterexample to C7 as stated: when reading the `QUIT` response
fails (EOF: the channel has no lines), `Logout` returns the read error
*without* closing the control channel, so the channel is not closed "in
every case". -/
theorem logout_skips_close_on_quit_read_error :
    Logout ⟨[], []⟩ false = ⟨some .ioRead, false⟩ := rfl

/-- C3 (amended): whenever the six-group pattern matches with port
groups `p1, p2` whose combination `p1*256 + p2` stays below `2^63`
(so Go's `Atoi` parses both exactly and no 64-bit wrap occurs),
`extractDataPort` returns exactly `p1*256 + p2`; for every body with no
match it fails with the source's protocol error; and on the spec's
example body it returns `205*256 + 238 = 52718`. -/
theorem extractDataPort_port_formula (line : List Char) :
    (∀ p1 p2, findPortMatch line = some (p1, p2) →
        digitsToNat p1 * 256 + digitsToNat p2 < 2 ^ 63 →
        extractDataPort line = .ok (digitsToNat p1 * 256 + digitsToNat p2))
    ∧ (findPortMatch line = none →
        extractDataPort line
          = .err (.protocol ("Cannot find data port in server output: " ++ String.mk line)))
    ∧ extractDataPort ("227 Entering Passive Mode (127,0,0,1,205,238).").data
        = .ok 52718 := by
  refine ⟨?_, ?_, rfl⟩
  · intro p1 p2 hm hlt
    simp only [extractDataPort, hm, atoiDigitsGo, maxInt64, Res.ok.injEq]
    omega
  · intro hm
    simp [extractDataPort, hm]

/-- Witness for C3's theorem at the spec's example body. -/
theorem extractDataPort_port_formula_witness :
    extractDataPort ("227 Entering Passive Mode (127,0,0,1,205,238).").data
      = .ok (digitsToNat ("205").data * 256 + digitsToNat ("238").data) :=
  (extractDataPort_port_formula
      ("227 Entering Passive Mode (127,0,0,1,205,238).").data).1
    ("205").data ("238").data (by decide) (by decide)

/-- Counterexample to C3 as stated: a digit group beyond the 64-bit
signed range.  `strconv.Atoi` returns `maxInt64` with `ErrRange` (the
error is discarded), the multiplication wraps modulo `2^64`, and the
result is not `p1*256 + p2`. -/
theorem extractDataPort_huge_group_not_exact :
    extractDataPort ("227 =(1,2,3,4,99999999999999999999,7)").data
      = .ok 18446744073709551367
    ∧ (18446744073709551367 : Nat) ≠ 99999999999999999999 * 256 + 7 :=
  ⟨rfl, by decide⟩

/-- C10 (amended): `extractDataPort` imposes no range check: every body
containing the pattern yields success with port
`(v1*256 + v2) % 2^64`, where `vi` is the group's digit value clamped to
`maxInt64` (Go `Atoi`'s range-error result; the groups are digit-only,
so a syntactic parse failure cannot occur); octets greater than 255
yield ports greater than 65535 rather than an error. -/
theorem extractDataPort_no_range_check (line p1 p2 : List Char)
    (h : findPortMatch line = some (p1, p2)) :
    extractDataPort line
      = .ok ((min (digitsToNat p1) maxInt64 * 256
              + min (digitsToNat p2) maxInt64) % 2 ^ 64)
    ∧ extractDataPort ("(9,9,9,9,300,1)").data = .ok 76801
    ∧ 65535 < 76801 := by
  refine ⟨?_, rfl, by decide⟩
  simp [extractDataPort, h, atoiDigitsGo]

/-- Witness for C10's theorem at a body whose port octet 300 exceeds
255. -/
theorem extractDataPort_no_range_check_witness :
    extractDataPort ("(9,9,9,9,300,1)").data
      = .ok ((min (digitsToNat ("300").data) maxInt64 * 256
              + min (digitsToNat ("1").data) maxInt64) % 2 ^ 64)
    ∧ extractDataPort ("(9,9,9,9,300,1)").data = .ok 76801
    ∧ 65535 < 76801 :=
  extractDataPort_no_range_check ("(9,9,9,9,300,1)").data
    ("300").data ("1").data (by decide)

/-- Counterexample to C10's parenthetical as stated: a group whose parse
fails (range error on `2^64`) contributes `maxInt64`, not 0 — the
computed port is far from `0*256 + 5`. -/
theorem extractDataPort_overflow_not_zero :
    extractDataPort ("(1,1,1,1,18446744073709551616,5)").data
      = .ok 18446744073709551365
    ∧ (18446744073709551365 : Nat) ≠ 0 * 256 + 5 :=
  ⟨rfl, by decide⟩

end Ftp
